import Mathlib

/-!
Verification development for the glyph-layout / compositing / caching core of
the video-captioning repository (`src/rendering/text_renderer.py` and
`src/cache/bitmap_cache.py`).

The Python code is shallowly embedded as executable Lean definitions:

* Pixels and bitmaps are numpy `uint8` arrays in the source; here a pixel is a
  quadruple of naturals and a bitmap/image is a size plus a total lookup
  function.  Channel values are kept as plain `Nat`; theorems that need the
  `uint8` range state `≤ 255` explicitly.
* The alpha-blend in `apply_bitmap_to_image` is computed by numpy in `float64`
  and cast back with `np.uint8` (a truncating cast).  The arithmetic is
  modelled exactly over the rationals: `((255 - a) * bg + a * fg) / 255` with
  `Nat` floor division, which is the truncation of the exact value of
  `(1 - a/255) * bg + (a/255) * fg`.
* Python `>> 6` on `int` and `// 2` are floor divisions, embedded as
  `Int.fdiv`.
* Python slice endpoints (`image[y0:y1, x0:x1]`) follow Python semantics:
  a negative endpoint counts from the end of the axis, then both endpoints are
  clamped to `[0, len]` (`pyIdx`).  numpy raises a broadcast `ValueError` when
  the two slices produced by the source disagree in shape; that failure is the
  `none` result of `applyBitmapToImage`.  (numpy would broadcast a dimension
  equal to 1; the source only produces unequal shapes via negative-endpoint
  wrap-around, where the mismatched sizes exercised below are never 1.)
* The mutable `TextRenderer` object (glyph slot, call counters, kerning cache,
  optional bitmap cache) is explicit state (`RState`) threaded through the
  functions; `loadCount` counts `face.load_char` calls and `kernCount` counts
  `face.get_kerning` calls, mirroring the call counters the spec's testable
  properties refer to.
* `BitmapCache.save_cache` / `load_cache` delegate to `pickle`; the stdlib
  serializer is modelled by an explicit token stream: `pickle.dump` always
  begins with opcode `0x80` (protocol marker), an empty file makes
  `pickle.load` raise `EOFError`, and a leading byte that is not a valid
  opcode raises `UnpicklingError`.  The embedding mirrors exactly this error
  taxonomy (`PErr.eofErr` / `PErr.badData`); the code catches only
  `FileNotFoundError` and `EOFError`.
-/

/-- One RGBA pixel: channels 0,1,2 are the colour channels (B,G,R in the
source's channel constants) and `a` is channel 3, the alpha channel. -/
structure Pixel where
  c0 : Nat
  c1 : Nat
  c2 : Nat
  a : Nat
deriving DecidableEq, Repr

/-- A glyph bitmap as built by `get_bitmap_3d`: `h × w` pixels, total lookup
function (out-of-range lookups are never used by the theorems). -/
structure Bitmap where
  h : Nat
  w : Nat
  pix : Nat → Nat → Pixel

/-- The caller-owned target image mutated by `apply_bitmap_to_image`. -/
structure Image where
  h : Nat
  w : Nat
  pix : Nat → Nat → Pixel

/-- One colour channel of the alpha blend of `apply_bitmap_to_image`
(text_renderer.py lines 174-177): `(1 - alpha) * bg + alpha * fg` with
`alpha = a / 255`, computed exactly and truncated to an integer by the
`np.uint8` cast.  Over `Nat`, `((255 - a) * bg + a * fg) / 255`. -/
def blendChannel (bg fg a : Nat) : Nat :=
  ((255 - a) * bg + a * fg) / 255

/-- One blended pixel: the three colour channels are alpha-blended with the
foreground pixel's alpha mask, and the destination keeps its own fourth
channel (`np.concatenate((np.uint8(blended_slice), img_slice[:, :, 3]))`). -/
def blendPix (bg fg : Pixel) : Pixel :=
  ⟨blendChannel bg.c0 fg.c0 fg.a, blendChannel bg.c1 fg.c1 fg.a,
   blendChannel bg.c2 fg.c2 fg.a, bg.a⟩

/-- Resolution of one Python slice endpoint for an axis of length `n`:
negative endpoints count from the end, then the result is clamped to
`[0, n]`. -/
def pyIdx (i : Int) (n : Nat) : Nat :=
  if i < 0 then (i + n).toNat else min i.toNat n

/-- `TextRenderer.apply_bitmap_to_image` (text_renderer.py lines 154-180).
`x0,x1,y0,y1` are the clipped image-slice endpoints, `ty0,ty1,tx0,tx1` the
bitmap-slice endpoints; the row/column counts of the two slices must agree or
numpy raises a broadcast `ValueError` (the `none` result).  On success every
pixel in the covered rectangle is alpha-blended channel-wise and keeps the
destination's own alpha channel; all other pixels are untouched. -/
def applyBitmapToImage (image : Image) (bitmap : Bitmap) (x y : Int) :
    Option Image :=
  let iy0 := pyIdx (max y 0) image.h
  let iy1 := pyIdx (min (y + bitmap.h) image.h) image.h
  let ix0 := pyIdx (max x 0) image.w
  let ix1 := pyIdx (min (x + bitmap.w) image.w) image.w
  let ty0 := pyIdx (max y 0 - y) bitmap.h
  let ty1 := pyIdx (min (y + bitmap.h) image.h - y) bitmap.h
  let tx0 := pyIdx (max x 0 - x) bitmap.w
  let tx1 := pyIdx (min (x + bitmap.w) image.w - x) bitmap.w
  if iy1 - iy0 = ty1 - ty0 ∧ ix1 - ix0 = tx1 - tx0 then
    some ⟨image.h, image.w, fun i j =>
      if iy0 ≤ i ∧ i < iy1 ∧ ix0 ≤ j ∧ j < ix1 then
        blendPix (image.pix i j) (bitmap.pix (ty0 + (i - iy0)) (tx0 + (j - ix0)))
      else image.pix i j⟩
  else none

/-- Pixel `(i, j)` of the image produced by `apply_bitmap_to_image`, when the
call succeeds. -/
def applyPix (image : Image) (bitmap : Bitmap) (x y : Int) (i j : Nat) :
    Option Pixel :=
  (applyBitmapToImage image bitmap x y).map fun im => im.pix i j

/-- Whether `apply_bitmap_to_image` raises (numpy broadcast failure). -/
def applyFails (image : Image) (bitmap : Bitmap) (x y : Int) : Bool :=
  (applyBitmapToImage image bitmap x y).isNone

/-- The state of one glyph slot after `face.load_char`: `advance.x` in 26.6
fixed-point font units, `bitmap.rows`, `bitmap.width`, `bitmap_top`,
`bitmap_left`, and the coverage buffer. -/
structure Glyph where
  advanceX : Int
  rows : Nat
  width : Nat
  top : Int
  left : Int
  buffer : Nat → Nat → Nat

/-- A loaded FreeType face at a fixed character size: glyph metrics per
codepoint and the pairwise kerning query (raw 26.6 fixed-point values).
`none` as the previous character models the integer `0` the source uses
before the first character. -/
structure FontFace where
  glyph : Char → Glyph
  kern : Option Char → Char → Int × Int

/-- The immutable configuration of a `TextRenderer`: the face and
`self.char_size`. -/
structure Renderer where
  face : FontFace
  charSize : Nat

/-- `TextRenderer.__init__` (text_renderer.py line 36):
`self.char_size = char_size * 64` — FreeType uses 1/64th points, so the
stored size (and hence every cache key) is the point size times 64. -/
def rendererInit (face : FontFace) (points : Nat) : Renderer :=
  ⟨face, points * 64⟩

/-- The mutable state of a `TextRenderer`: the glyph slot (`self.slot`, a live
view of the last `load_char` result), call counters for `face.load_char` and
`face.get_kerning`, the kerning cache, and the optional bitmap cache mapping
(`None` when no `BitmapCache` was supplied). -/
structure RState where
  slot : Glyph
  loadCount : Nat
  kernCount : Nat
  kerningCache : List ((Option Char × Char) × (Int × Int))
  cache : Option (List ((Char × Nat) × (Bitmap × Int × Int)))

/-- Lookup in an association list (a Python `dict` read). -/
def assocFind {α β : Type} [DecidableEq α] (k : α) : List (α × β) → Option β
  | [] => none
  | (k', v) :: rest => if k = k' then some v else assocFind k rest

/-- Store in an association list (a Python `dict` write): replace the binding
if the key is present, otherwise append it. -/
def assocInsert {α β : Type} [DecidableEq α] (k : α) (v : β) :
    List (α × β) → List (α × β)
  | [] => [(k, v)]
  | (k', v') :: rest =>
      if k = k' then (k, v) :: rest else (k', v') :: assocInsert k v rest

/-- `self.face.load_char(char)`: the glyph slot now holds the metrics of
`char`, and the face has been consulted once more. -/
def loadChar (r : Renderer) (s : RState) (c : Char) : RState :=
  { s with slot := r.face.glyph c, loadCount := s.loadCount + 1 }

/-- `TextRenderer.get_kerning` (text_renderer.py lines 64-75): return the
cached kerning value for `(previous_char, current_char)` if present, otherwise
query the face, store, and return. -/
def getKerning (r : Renderer) (s : RState) (p : Option Char) (c : Char) :
    (Int × Int) × RState :=
  match assocFind (p, c) s.kerningCache with
  | some v => (v, s)
  | none =>
      let v := r.face.kern p c
      (v, { s with
              kerningCache := ((p, c), v) :: s.kerningCache,
              kernCount := s.kernCount + 1 })

/-- The loop body of `TextRenderer.calculate_text_size` (lines 53-60),
accumulating `(width, height, baseline)` and `previous_char` over the text. -/
def measureGo (r : Renderer) (w h b : Int) (prev : Option Char) (s : RState) :
    List Char → (Int × Int × Int) × RState
  | [] => ((w, h, b), s)
  | c :: cs =>
      let s1 := loadChar r s c
      let g := s1.slot
      let h1 := max h ((g.rows : Int) - g.top)
      let b1 := max b (-g.top)
      let ks := getKerning r s1 prev c
      let w1 := w + Int.fdiv g.advanceX 64 + Int.fdiv ks.1.1 64
      measureGo r w1 h1 b1 (some c) ks.2 cs

/-- `TextRenderer.calculate_text_size` (text_renderer.py lines 43-62):
single pass from `width, height, baseline = 0, 0, 0` and `previous_char = 0`. -/
def calculateTextSize (r : Renderer) (s : RState) (text : List Char) :
    (Int × Int × Int) × RState :=
  measureGo r 0 0 0 none s text

/-- `TextRenderer.get_bitmap_3d` (lines 140-152): an RGBA buffer whose colour
channels are the fixed text colour (255,255,255) and whose alpha channel is
the rasterizer's coverage buffer. -/
def getBitmap3d (g : Glyph) : Bitmap :=
  ⟨g.rows, g.width, fun i j => ⟨255, 255, 255, g.buffer i j⟩⟩

/-- The loop of `TextRenderer.preload_cache` (lines 195-213): for each
character whose key `(char, self.char_size)` is not yet cached — and only when
a cache was supplied — rasterize it and store `(bitmap_3d, left, top)`. -/
def preloadGo (r : Renderer) (s : RState) : List Char → RState
  | [] => s
  | c :: cs =>
      let s1 :=
        match s.cache with
        | none => s
        | some m =>
            if (assocFind (c, r.charSize) m).isSome then s
            else
              let s2 := loadChar r s c
              let g := s2.slot
              { s2 with
                  cache := some (assocInsert (c, r.charSize)
                    (getBitmap3d g, g.left, g.top) m) }
      preloadGo r s1 cs

/-- `TextRenderer.preload_cache` (text_renderer.py lines 195-213). -/
def preloadCache (r : Renderer) (s : RState) (text : List Char) : RState :=
  preloadGo r s text

/-- The per-character loop of `TextRenderer.render_text` (lines 98-131).
On a cache hit the stored `(bitmap_3d, left, top)` is used and the glyph slot
is left untouched; on a miss the character is loaded (and stored when a cache
exists).  The pen `x` advances by the kerning before the placement and by
`self.slot.advance.x >> 6` — the advance of whatever glyph the slot currently
holds — after it.  `acc` collects the submitted compositing placements
`(bitmap, x_position + left, y_position - top)`. -/
def renderGo (r : Renderer) (ypos x : Int) (prev : Option Char) (s : RState)
    (acc : List (Bitmap × Int × Int)) :
    List Char → List (Bitmap × Int × Int) × RState
  | [] => (acc, s)
  | c :: cs =>
      let key := (c, r.charSize)
      let st :=
        match s.cache with
        | some m =>
            match assocFind key m with
            | some e => (e, s)
            | none =>
                let s1 := loadChar r s c
                let g := s1.slot
                let e := (getBitmap3d g, g.left, g.top)
                (e, { s1 with cache := some (assocInsert key e m) })
        | none =>
            let s1 := loadChar r s c
            let g := s1.slot
            ((getBitmap3d g, g.left, g.top), s1)
      let e := st.1
      let s1 := st.2
      let ychar := ypos - e.2.2
      let ks := getKerning r s1 prev c
      let x1 := x + Int.fdiv ks.1.1 64
      let x2 := x1 + Int.fdiv ks.2.slot.advanceX 64
      renderGo r ypos x2 (some c) ks.2 (acc ++ [(e.1, x1 + e.2.1, ychar)]) cs

/-- `TextRenderer.render_text` (text_renderer.py lines 77-138): preload the
cache, measure the text, centre it on the image, then walk the text emitting
one compositing task per character.  The result is the list of submitted
placements together with the final renderer state.  (The final
`save_cache` call and the in-place pixel writes are modelled separately by
`saveCache` and `applyBitmapToImage`.) -/
def renderText (r : Renderer) (s : RState) (text : List Char)
    (imageH imageW : Int) : List (Bitmap × Int × Int) × RState :=
  let s1 := preloadCache r s text
  let ms := calculateTextSize r s1 text
  let tw := ms.1.1
  let th := ms.1.2.1
  let bl := ms.1.2.2
  let x0 := Int.fdiv (imageW - tw) 2
  let y0 := Int.fdiv (imageH - th) 2 + bl
  renderGo r y0 x0 none ms.2 [] text

/-- The keys of the renderer's bitmap cache, in storage order. -/
def cacheKeys (s : RState) : List (Char × Nat) :=
  match s.cache with
  | none => []
  | some m => m.map Prod.fst

/-- The x-coordinates at which `render_text` submits its compositing tasks. -/
def placementXs (res : List (Bitmap × Int × Int) × RState) : List Int :=
  res.1.map fun p => p.2.1

/-- The kerning cache only holds values the face would return: every cached
binding agrees with `face.kern`.  This holds initially (empty cache) and is
preserved by `getKerning`. -/
def kernConsistent (f : FontFace) (s : RState) : Prop :=
  ∀ p c v, assocFind (p, c) s.kerningCache = some v → v = f.kern p c

/-- The layout walk stated in spec §4.4, written from the spec's words for
comparison with `calculateTextSize`: per-glyph pixel metrics
`advance_x`, `bitmap_rows`, `bitmap_top` and a kerning function
`kerning_dx(prev, c)`, accumulated as
`height = max(height, bitmap_rows - bitmap_top)`,
`baseline = max(baseline, -bitmap_top)`,
`width += advance_x + kerning_dx(prev, c)`. -/
def specMeasureGo (adv rows top : Char → Int) (kd : Option Char → Char → Int)
    (w h b : Int) (prev : Option Char) : List Char → Int × Int × Int
  | [] => (w, h, b)
  | c :: cs =>
      specMeasureGo adv rows top kd (w + adv c + kd prev c)
        (max h (rows c - top c)) (max b (-top c)) (some c) cs

/-- Spec §4.4 `measure`, started from `width=0, height=0, baseline=0,
prev=0`. -/
def specMeasure (adv rows top : Char → Int) (kd : Option Char → Char → Int)
    (text : List Char) : Int × Int × Int :=
  specMeasureGo adv rows top kd 0 0 0 none text

/-- The render-time pen walk stated in spec §4.6 step 4 / §4.4, written from
the spec's words: from pen position `x`, for each codepoint `c`, `x` advances
by `kerning_dx(prev, c)`, the glyph is placed at `x + bitmap_left`, and `x`
then advances by `advance_x(c)`.  Returns the placement x-coordinates. -/
def specXWalkGo (adv left : Char → Int) (kd : Option Char → Char → Int)
    (x : Int) (prev : Option Char) : List Char → List Int
  | [] => []
  | c :: cs =>
      let x1 := x + kd prev c
      (x1 + left c) :: specXWalkGo adv left kd (x1 + adv c) (some c) cs

/-- Spec §4.6 step 4 placement walk from a starting pen position. -/
def specXWalk (adv left : Char → Int) (kd : Option Char → Char → Int)
    (x0 : Int) (text : List Char) : List Int :=
  specXWalkGo adv left kd x0 none text

/-- The two ways `pickle.load` fails on the cache file: `EOFError` (empty
file or stream ending at an opcode boundary) and `UnpicklingError` (an
invalid opcode). -/
inductive PErr
  | eofErr
  | badData
deriving DecidableEq, Repr

/-- A cached bitmap payload as persisted by `BitmapCache`: the bitmap as
`(rows, width, raw bytes)` plus the `(left, top)` placement offsets. -/
abbrev BEntry := (Nat × Nat × List Nat) × Int × Int

/-- The persisted cache mapping `{(codepoint, size): entry}`. -/
abbrev CacheMap := List ((Nat × Nat) × BEntry)

/-- Serialize an integer as a sign tag followed by its magnitude. -/
def encInt (z : Int) : List Nat :=
  [if z < 0 then 1 else 0, z.natAbs]

/-- Serialize one cached payload. -/
def encEntry (e : BEntry) : List Nat :=
  e.1.1 :: e.1.2.1 :: e.1.2.2.length :: (e.1.2.2 ++ (encInt e.2.1 ++ encInt e.2.2))

/-- Serialize one key/value binding. -/
def encKV (kv : (Nat × Nat) × BEntry) : List Nat :=
  kv.1.1 :: kv.1.2 :: encEntry kv.2

/-- Serialize the bindings of a cache mapping, in order. -/
def encEntries : CacheMap → List Nat
  | [] => []
  | kv :: rest => encKV kv ++ encEntries rest

/-- The byte stream `pickle.dump` writes for a cache mapping: the protocol
opcode `0x80` first (as every protocol-2+ pickle starts with), then the
binding count, then the bindings. -/
def pickleDump (m : CacheMap) : List Nat :=
  128 :: m.length :: encEntries m

/-- Read one token; an exhausted stream is `EOFError`. -/
def readTok : List Nat → Except PErr (Nat × List Nat)
  | [] => Except.error PErr.eofErr
  | t :: rest => Except.ok (t, rest)

/-- Read `n` tokens. -/
def readN : Nat → List Nat → Except PErr (List Nat × List Nat)
  | 0, bs => Except.ok ([], bs)
  | _ + 1, [] => Except.error PErr.eofErr
  | n + 1, t :: rest =>
      match readN n rest with
      | Except.ok (l, bs) => Except.ok (t :: l, bs)
      | Except.error e => Except.error e

/-- Read an integer; an invalid sign tag is corrupt data. -/
def readInt (bs : List Nat) : Except PErr (Int × List Nat) :=
  match readTok bs with
  | Except.error e => Except.error e
  | Except.ok (tag, bs1) =>
      match readTok bs1 with
      | Except.error e => Except.error e
      | Except.ok (mag, bs2) =>
          if tag = 0 then Except.ok ((mag : Int), bs2)
          else if tag = 1 then Except.ok (-(mag : Int), bs2)
          else Except.error PErr.badData

/-- Read one cached payload. -/
def readEntry (bs : List Nat) : Except PErr (BEntry × List Nat) :=
  match readTok bs with
  | Except.error e => Except.error e
  | Except.ok (rows, bs1) =>
  match readTok bs1 with
  | Except.error e => Except.error e
  | Except.ok (wid, bs2) =>
  match readTok bs2 with
  | Except.error e => Except.error e
  | Except.ok (len, bs3) =>
  match readN len bs3 with
  | Except.error e => Except.error e
  | Except.ok (bytes, bs4) =>
  match readInt bs4 with
  | Except.error e => Except.error e
  | Except.ok (l, bs5) =>
  match readInt bs5 with
  | Except.error e => Except.error e
  | Except.ok (t, bs6) => Except.ok (((rows, wid, bytes), l, t), bs6)

/-- Read one key/value binding. -/
def readKV (bs : List Nat) : Except PErr ((((Nat × Nat) × BEntry)) × List Nat) :=
  match readTok bs with
  | Except.error e => Except.error e
  | Except.ok (cp, bs1) =>
  match readTok bs1 with
  | Except.error e => Except.error e
  | Except.ok (sz, bs2) =>
  match readEntry bs2 with
  | Except.error e => Except.error e
  | Except.ok (e, bs3) => Except.ok (((cp, sz), e), bs3)

/-- Read `n` bindings. -/
def readEntries : Nat → List Nat → Except PErr (CacheMap × List Nat)
  | 0, bs => Except.ok ([], bs)
  | n + 1, bs =>
      match readKV bs with
      | Except.error e => Except.error e
      | Except.ok (kv, bs1) =>
          match readEntries n bs1 with
          | Except.error e => Except.error e
          | Except.ok (rest, bs2) => Except.ok (kv :: rest, bs2)

/-- What `pickle.load` does with the cache file's contents: an empty stream
raises `EOFError`; a stream not beginning with a valid opcode raises
`UnpicklingError` (`badData`); otherwise the mapping is decoded. -/
def pickleLoadBytes (bs : List Nat) : Except PErr CacheMap :=
  match readTok bs with
  | Except.error e => Except.error e
  | Except.ok (magic, bs1) =>
      if magic = 128 then
        match readTok bs1 with
        | Except.error e => Except.error e
        | Except.ok (n, bs2) =>
            match readEntries n bs2 with
            | Except.error e => Except.error e
            | Except.ok (m, _) => Except.ok m
      else Except.error PErr.badData

/-- `BitmapCache.save_cache` (bitmap_cache.py lines 33-38): the cache file's
contents after the call. -/
def saveCache (m : CacheMap) : Option (List Nat) :=
  some (pickleDump m)

/-- `BitmapCache.load_cache` (bitmap_cache.py lines 21-31): a missing file
(`FileNotFoundError`) or an `EOFError` from `pickle.load` yields the empty
mapping; any other deserialization failure propagates to the caller — the
`except` clause catches only `(FileNotFoundError, EOFError)`. -/
def loadCache (file : Option (List Nat)) : Except PErr CacheMap :=
  match file with
  | none => Except.ok []
  | some bs =>
      match pickleLoadBytes bs with
      | Except.ok m => Except.ok m
      | Except.error PErr.eofErr => Except.ok []
      | Except.error PErr.badData => Except.error PErr.badData

/-- A glyph slot before any `load_char`: an empty glyph. -/
def zeroGlyph : Glyph :=
  ⟨0, 0, 0, 0, 0, fun _ _ => 0⟩

/-- The §8 concrete-scenario font: `advance_x('A') = 30` px (raw `30*64`),
`advance_x('B') = 28` px, `bitmap_top('A') = bitmap_rows('A') = 40`,
`bitmap_top('B') = bitmap_rows('B') = 35`, `kerning('A','B') = (2, 0)` px
(raw `(128, 0)`), all other kerning `(0, 0)`. -/
def scenFace : FontFace :=
  ⟨fun c =>
      if c = 'A' then ⟨1920, 40, 1, 40, 0, fun _ _ => 0⟩
      else if c = 'B' then ⟨1792, 35, 1, 35, 0, fun _ _ => 0⟩
      else zeroGlyph,
   fun p c => if p = some 'A' ∧ c = 'B' then (128, 0) else (0, 0)⟩

/-- The §8 renderer: the scenario font at point-size 48. -/
def scenRenderer : Renderer :=
  rendererInit scenFace 48

/-- Fresh renderer state with no `BitmapCache` supplied. -/
def scenStateNoCache : RState :=
  ⟨zeroGlyph, 0, 0, [], none⟩

/-- Fresh renderer state with an empty `BitmapCache` supplied. -/
def scenStateCache : RState :=
  ⟨zeroGlyph, 0, 0, [], some []⟩

/-- Renderer state after rendering the text `"A"` once on a 100×200 image,
starting from an empty cache. -/
def sA1 : RState :=
  (renderText scenRenderer scenStateCache ['A'] 100 200).2

/-- Renderer state after rendering the text `"A"` a second time. -/
def sA2 : RState :=
  (renderText scenRenderer sA1 ['A'] 100 200).2

/-- A 200×200 opaque black target image. -/
def bigImg : Image :=
  ⟨200, 200, fun _ _ => ⟨0, 0, 0, 255⟩⟩

/-- A 5×5 fully-opaque white glyph bitmap. -/
def smallBmp : Bitmap :=
  ⟨5, 5, fun _ _ => ⟨255, 255, 255, 255⟩⟩

/-- C10: `calculate_text_size` on the empty string returns exactly
`(0, 0, 0)` and leaves the renderer state — including both face-call
counters — untouched: the font face is never consulted. -/
theorem measure_empty_no_font_access (r : Renderer) (s : RState) :
    calculateTextSize r s [] = ((0, 0, 0), s) :=
  rfl

/-- C1 counterexample: on the §8 scenario font, `calculate_text_size "AB"`
does not return `(width, height, baseline) = (60, 0, -35)`: `baseline` is the
running maximum `max(baseline, -bitmap_top)` started at `0`, so it comes out
`0`, not `max(-40, -35) = -35`. -/
theorem calculate_text_size_scenario_cex :
    (calculateTextSize scenRenderer scenStateNoCache ['A', 'B']).1 ≠
      (60, 0, -35) := by
  decide

/-- C2: with a `BitmapCache` supplied, `render_text "AB"` on a 100×200 image
submits its glyphs at x-coordinates `[70, 100]`, while the §4.4/§4.6 layout
walk from the same starting pen `x = 70` places them at `[70, 102]`: after a
cache hit the code advances the pen by `self.slot.advance.x`, the advance of
whatever glyph was loaded last (here `'B'`, from the measure pass), not the
advance of the current character. -/
theorem render_text_stale_advance :
    placementXs (renderText scenRenderer scenStateCache ['A', 'B'] 100 200) =
        [70, 100] ∧
      specXWalk (fun c => Int.fdiv (scenFace.glyph c).advanceX 64)
          (fun c => (scenFace.glyph c).left)
          (fun p c => Int.fdiv (scenFace.kern p c).1 64) 70 ['A', 'B'] =
        [70, 102] ∧
      placementXs (renderText scenRenderer scenStateCache ['A', 'B'] 100 200) ≠
        specXWalk (fun c => Int.fdiv (scenFace.glyph c).advanceX 64)
          (fun c => (scenFace.glyph c).left)
          (fun p c => Int.fdiv (scenFace.kern p c).1 64) 70 ['A', 'B'] := by
  refine ⟨by decide, by decide, by decide⟩

/-- C6 counterexample: rendering `"A"` at point-size 48 from an empty cache
populates exactly one entry, but its key is `('A', 3072)` — `char_size` is
stored as `48 * 64` — not `('A', 48)`; and the second render performs one
additional `load_char` call against the face (from the measure pass), not
zero. -/
theorem render_cache_key_cex :
    cacheKeys sA1 = [('A', 3072)] ∧ cacheKeys sA1 ≠ [('A', 48)] ∧
      sA2.loadCount = sA1.loadCount + 1 := by
  refine ⟨by decide, by decide, by decide⟩

/-- C6 amended: rendering `"A"` at point-size 48 from an empty cache
populates exactly one entry, keyed `('A', 48 * 64)`; the second render adds
no cache entry and performs exactly one additional rasterization call —
`calculate_text_size` reloads each character on every render, while the
preload and compositing passes hit the cache. -/
theorem render_cache_key_scaled :
    cacheKeys sA1 = [('A', 48 * 64)] ∧ cacheKeys sA2 = cacheKeys sA1 ∧
      sA1.loadCount = 2 ∧ sA2.loadCount = 3 := by
  refine ⟨by decide, by decide, by decide, by decide⟩

/-- C8: compositing a 5×5 glyph at `(x, y) = (0, -100)` onto a 200×200 image
places it entirely outside the image (`y + h = -95 ≤ 0`), yet
`apply_bitmap_to_image` raises instead of leaving the image unchanged: the
negative slice stop `y1 = -95` wraps to row `105` of the image while the
bitmap slice `[100:5]` is empty, and numpy fails to broadcast shapes
`(0, 5, 1)` and `(105, 5, 3)`. -/
theorem apply_bitmap_outside_raises :
    ((-100 : Int) + (smallBmp.h : Int) ≤ 0) ∧
      applyFails bigImg smallBmp 0 (-100) = true := by
  refine ⟨by decide, by decide⟩

/-- C5 counterexample: a cache file whose contents are corrupt — a single
byte that is not a valid pickle opcode — makes `load_cache` raise
(`pickle.UnpicklingError` is not in the `except (FileNotFoundError,
EOFError)` clause) instead of returning an empty mapping. -/
theorem load_cache_raises_on_bad_magic :
    loadCache (some [0]) = Except.error PErr.badData :=
  rfl

lemma readN_append (l r : List Nat) :
    readN l.length (l ++ r) = Except.ok (l, r) := by
  induction l with
  | nil => rfl
  | cons t l ih => simp [readN, ih]

lemma readInt_enc (z : Int) (r : List Nat) :
    readInt (encInt z ++ r) = Except.ok (z, r) := by
  by_cases hz : z < 0
  · have h1 : ((z.natAbs : Int)) = -z := Int.ofNat_natAbs_of_nonpos (le_of_lt hz)
    simp [encInt, readInt, readTok, hz, h1]
  · have h1 : ((z.natAbs : Int)) = z := Int.natAbs_of_nonneg (not_lt.mp hz)
    simp [encInt, readInt, readTok, hz, h1]

lemma readEntry_enc (e : BEntry) (r : List Nat) :
    readEntry (encEntry e ++ r) = Except.ok (e, r) := by
  obtain ⟨⟨rows, wid, bytes⟩, l, t⟩ := e
  simp [encEntry, encKV, readEntry, readTok, List.append_assoc, readN_append,
    readInt_enc]

lemma readKV_enc (kv : (Nat × Nat) × BEntry) (r : List Nat) :
    readKV (encKV kv ++ r) = Except.ok (kv, r) := by
  obtain ⟨⟨cp, sz⟩, e⟩ := kv
  simp [encKV, readKV, readTok, List.append_assoc, readEntry_enc]

lemma readEntries_enc (m : CacheMap) (r : List Nat) :
    readEntries m.length (encEntries m ++ r) = Except.ok (m, r) := by
  induction m with
  | nil => rfl
  | cons kv m ih =>
      simp [encEntries, readEntries, List.append_assoc, readKV_enc, ih]

lemma pickle_roundtrip (m : CacheMap) :
    pickleLoadBytes (pickleDump m) = Except.ok m := by
  have h := readEntries_enc m []
  rw [List.append_nil] at h
  simp [pickleDump, pickleLoadBytes, readTok, h]

/-- C4: persisting a non-empty cache mapping and restoring it from the same
file yields a mapping equal to the original — every key and every bitmap
payload round-trips byte-for-byte. -/
theorem load_after_save_roundtrip (m : CacheMap) (_hm : m ≠ []) :
    loadCache (saveCache m) = Except.ok m := by
  simp [saveCache, loadCache, pickle_roundtrip m]

/-- C4 witness: the round-trip at a concrete one-entry cache. -/
theorem load_after_save_roundtrip_w :
    ([((65, 3072), ((1, 1, [200]), 0, 40))] : CacheMap) ≠ [] ∧
      loadCache (saveCache [((65, 3072), ((1, 1, [200]), 0, 40))]) =
        Except.ok [((65, 3072), ((1, 1, [200]), 0, 40))] :=
  ⟨by decide, load_after_save_roundtrip [((65, 3072), ((1, 1, [200]), 0, 40))]
    (by decide)⟩

/-- C5 amended: `load_cache` returns an empty mapping when the file is absent
(`FileNotFoundError`) or when `pickle.load` raises `EOFError` (empty or
opcode-boundary-truncated data); corrupt data raising any other
deserialization error (e.g. `pickle.UnpicklingError`) propagates to the
caller. -/
theorem load_cache_recovers_missing_and_eof (bs : List Nat)
    (hb : pickleLoadBytes bs = Except.error PErr.eofErr) :
    loadCache none = Except.ok [] ∧ loadCache (some bs) = Except.ok [] := by
  constructor
  · rfl
  · simp [loadCache, hb]

/-- C5 witness: the empty file raises `EOFError` and `load_cache` recovers. -/
theorem load_cache_recovers_missing_and_eof_w :
    pickleLoadBytes [] = Except.error PErr.eofErr ∧
      (loadCache none = Except.ok [] ∧ loadCache (some []) = Except.ok []) :=
  ⟨rfl, load_cache_recovers_missing_and_eof [] rfl⟩

lemma getKerning_spec (r : Renderer) (s : RState) (p : Option Char) (c : Char)
    (hk : kernConsistent r.face s) :
    (getKerning r s p c).1 = r.face.kern p c ∧
      kernConsistent r.face (getKerning r s p c).2 := by
  unfold getKerning
  cases hf : assocFind (p, c) s.kerningCache with
  | some v => exact ⟨hk p c v hf, hk⟩
  | none =>
      refine ⟨rfl, ?_⟩
      intro p' c' v' hv
      simp only [assocFind] at hv
      split at hv
      · next he =>
          injection he with he1 he2
          subst he1; subst he2
          exact (Option.some.inj hv).symm
      · exact hk p' c' v' hv

/-- C9: `get_kerning` is a transparent cache over `face.get_kerning` — as
long as every cached binding came from the face, the first call returns the
face's value, a second call for the same pair returns the same value with the
state (and hence the face-query counter) completely unchanged, and one call
queries the face at most once. -/
theorem get_kerning_transparent (r : Renderer) (s : RState) (p : Option Char)
    (c : Char) (hk : kernConsistent r.face s) :
    (getKerning r s p c).1 = r.face.kern p c ∧
      getKerning r (getKerning r s p c).2 p c =
        (r.face.kern p c, (getKerning r s p c).2) ∧
      (getKerning r s p c).2.kernCount ≤ s.kernCount + 1 := by
  refine ⟨(getKerning_spec r s p c hk).1, ?_, ?_⟩
  · unfold getKerning
    cases hf : assocFind (p, c) s.kerningCache with
    | some v =>
        simp only [assocFind, hf]
        exact Prod.ext (hk p c v hf) rfl
    | none => simp [assocFind]
  · unfold getKerning
    cases hf : assocFind (p, c) s.kerningCache with
    | some v => exact Nat.le_succ s.kernCount
    | none => exact le_refl _

/-- C9 witness: transparency at the scenario renderer with an empty kerning
cache, for the pair `(0, 'A')`. -/
theorem get_kerning_transparent_w :
    (getKerning scenRenderer scenStateNoCache none 'A').1 =
        scenRenderer.face.kern none 'A' ∧
      getKerning scenRenderer (getKerning scenRenderer scenStateNoCache none 'A').2
          none 'A' =
        (scenRenderer.face.kern none 'A',
          (getKerning scenRenderer scenStateNoCache none 'A').2) ∧
      (getKerning scenRenderer scenStateNoCache none 'A').2.kernCount ≤
        scenStateNoCache.kernCount + 1 :=
  get_kerning_transparent scenRenderer scenStateNoCache none 'A'
    (fun _ _ _ hv => Option.noConfusion hv)

lemma measureGo_spec (r : Renderer) (cs : List Char) :
    ∀ (w h b : Int) (prev : Option Char) (s : RState),
      kernConsistent r.face s →
      (measureGo r w h b prev s cs).1 =
        specMeasureGo (fun c => Int.fdiv (r.face.glyph c).advanceX 64)
          (fun c => ((r.face.glyph c).rows : Int))
          (fun c => (r.face.glyph c).top)
          (fun p c => Int.fdiv (r.face.kern p c).1 64) w h b prev cs := by
  induction cs with
  | nil => intro w h b prev s _; rfl
  | cons c cs ih =>
      intro w h b prev s hk
      have hk1 : kernConsistent r.face (loadChar r s c) := hk
      have h2 := getKerning_spec r (loadChar r s c) prev c hk1
      simp only [measureGo, specMeasureGo, h2.1]
      exact ih _ _ _ _ _ h2.2

/-- C1 amended: `calculate_text_size` performs exactly the single-pass §4.4
accumulation from `width = 0, height = 0, baseline = 0, prev = 0` (whenever
the kerning cache holds only face values, e.g. on a fresh renderer), and on
the §8 scenario it returns `width = 60`, `height = 0`, and `baseline = 0` —
the baseline running maximum starts at `0` and so absorbs the negative terms
`-40` and `-35`. -/
theorem calculate_text_size_spec_walk (r : Renderer) (s : RState)
    (text : List Char) (hk : kernConsistent r.face s) :
    (calculateTextSize r s text).1 =
        specMeasure (fun c => Int.fdiv (r.face.glyph c).advanceX 64)
          (fun c => ((r.face.glyph c).rows : Int))
          (fun c => (r.face.glyph c).top)
          (fun p c => Int.fdiv (r.face.kern p c).1 64) text ∧
      (calculateTextSize scenRenderer scenStateNoCache ['A', 'B']).1 =
        (60, 0, 0) :=
  ⟨measureGo_spec r text 0 0 0 none s hk, by decide⟩

/-- C1 witness: the refinement and the scenario value at the §8 renderer. -/
theorem calculate_text_size_spec_walk_w :
    (calculateTextSize scenRenderer scenStateNoCache ['A', 'B']).1 =
        specMeasure (fun c => Int.fdiv (scenRenderer.face.glyph c).advanceX 64)
          (fun c => ((scenRenderer.face.glyph c).rows : Int))
          (fun c => (scenRenderer.face.glyph c).top)
          (fun p c => Int.fdiv (scenRenderer.face.kern p c).1 64) ['A', 'B'] ∧
      (calculateTextSize scenRenderer scenStateNoCache ['A', 'B']).1 =
        (60, 0, 0) :=
  calculate_text_size_spec_walk scenRenderer scenStateNoCache ['A', 'B']
    (fun _ _ _ hv => Option.noConfusion hv)

lemma measureGo_mono (r : Renderer) (cs : List Char) :
    ∀ (w h b : Int) (prev : Option Char) (s : RState),
      h ≤ ((measureGo r w h b prev s cs).1).2.1 ∧
        b ≤ ((measureGo r w h b prev s cs).1).2.2 := by
  induction cs with
  | nil => intro w h b prev s; exact ⟨le_refl _, le_refl _⟩
  | cons c cs ih =>
      intro w h b prev s
      simp only [measureGo]
      exact ⟨le_trans (le_max_left _ _) (ih _ _ _ _ _).1,
        le_trans (le_max_left _ _) (ih _ _ _ _ _).2⟩

lemma measureGo_append (r : Renderer) (pre : List Char) :
    ∀ (suf : List Char) (w h b : Int) (prev : Option Char) (s : RState),
      ((measureGo r w h b prev s pre).1).2.1 ≤
          ((measureGo r w h b prev s (pre ++ suf)).1).2.1 ∧
        ((measureGo r w h b prev s pre).1).2.2 ≤
          ((measureGo r w h b prev s (pre ++ suf)).1).2.2 := by
  induction pre with
  | nil => intro suf w h b prev s; exact measureGo_mono r suf w h b prev s
  | cons c pre ih =>
      intro suf w h b prev s
      simp only [List.cons_append, measureGo]
      exact ih _ _ _ _ _ _

/-- C7: the height and baseline computed by `calculate_text_size` are
nonnegative for every string — they are running maxima started at `0` — and
they never decrease as the string is extended: the value on any prefix is a
lower bound for the value on the whole string (never reset mid-string). -/
theorem measure_nonneg_monotone (r : Renderer) (s : RState)
    (pre suf : List Char) :
    0 ≤ ((calculateTextSize r s (pre ++ suf)).1).2.1 ∧
      0 ≤ ((calculateTextSize r s (pre ++ suf)).1).2.2 ∧
      ((calculateTextSize r s pre).1).2.1 ≤
        ((calculateTextSize r s (pre ++ suf)).1).2.1 ∧
      ((calculateTextSize r s pre).1).2.2 ≤
        ((calculateTextSize r s (pre ++ suf)).1).2.2 :=
  ⟨(measureGo_mono r (pre ++ suf) 0 0 0 none s).1,
    (measureGo_mono r (pre ++ suf) 0 0 0 none s).2,
    (measureGo_append r pre suf 0 0 0 none s).1,
    (measureGo_append r pre suf 0 0 0 none s).2⟩

lemma blendChannel_floor (bg fg a : Nat) (ha : a ≤ 255) :
    blendChannel bg fg a =
      ⌊(1 - (a : ℚ) / 255) * bg + (a : ℚ) / 255 * fg⌋₊ := by
  have h2 : ((255 - a : ℕ) : ℚ) = 255 - (a : ℚ) := by
    exact_mod_cast Nat.cast_sub (R := ℚ) ha
  have h1 : (1 - (a : ℚ) / 255) * bg + (a : ℚ) / 255 * fg =
      (((255 - a) * bg + a * fg : ℕ) : ℚ) / ((255 : ℕ) : ℚ) := by
    push_cast [h2]
    ring
  rw [blendChannel, h1, Nat.floor_div_nat, Nat.floor_natCast]

lemma blendChannel_full (bg fg : Nat) : blendChannel bg fg 255 = fg := by
  rw [blendChannel]
  norm_num

lemma blendChannel_zero (bg fg : Nat) : blendChannel bg fg 0 = bg := by
  rw [blendChannel]
  norm_num

/-- The image `apply_bitmap_to_image` produces when the two slice shapes
agree: every pixel inside the clipped rectangle is alpha-blended with the
matching bitmap pixel, every other pixel is untouched. -/
def clippedBlend (image : Image) (bitmap : Bitmap) (x y : Int) : Image :=
  ⟨image.h, image.w, fun i j =>
    if pyIdx (max y 0) image.h ≤ i ∧
        i < pyIdx (min (y + bitmap.h) image.h) image.h ∧
        pyIdx (max x 0) image.w ≤ j ∧
        j < pyIdx (min (x + bitmap.w) image.w) image.w then
      blendPix (image.pix i j)
        (bitmap.pix (pyIdx (max y 0 - y) bitmap.h + (i - pyIdx (max y 0) image.h))
          (pyIdx (max x 0 - x) bitmap.w + (j - pyIdx (max x 0) image.w)))
    else image.pix i j⟩

lemma applyBitmap_ok (image : Image) (bitmap : Bitmap) (x y : Int)
    (hsh1 : pyIdx (min (y + bitmap.h) image.h) image.h -
        pyIdx (max y 0) image.h =
      pyIdx (min (y + bitmap.h) image.h - y) bitmap.h -
        pyIdx (max y 0 - y) bitmap.h)
    (hsh2 : pyIdx (min (x + bitmap.w) image.w) image.w -
        pyIdx (max x 0) image.w =
      pyIdx (min (x + bitmap.w) image.w - x) bitmap.w -
        pyIdx (max x 0 - x) bitmap.w) :
    applyBitmapToImage image bitmap x y =
      some (clippedBlend image bitmap x y) := by
  simp only [applyBitmapToImage]
  rw [if_pos ⟨hsh1, hsh2⟩]
  rfl

lemma pyIdxE (y : Int) (B H : Nat) (hy0 : 0 ≤ y + B) (hy1 : y ≤ H) :
    pyIdx (max y 0) H = (max y 0).toNat ∧
      pyIdx (min (y + B) H) H = (min (y + B) H).toNat ∧
      pyIdx (max y 0 - y) B = (max y 0 - y).toNat ∧
      pyIdx (min (y + B) H - y) B = (min (y + B) H - y).toNat := by
  refine ⟨?_, ?_, ?_, ?_⟩ <;> (simp only [pyIdx]; split <;> omega)

/-- C3 amended: for every `apply_bitmap_to_image` call — any placement,
including partially clipped glyphs — and every covered pixel inside the image
bounds, the call succeeds and that pixel's three colour channels equal the
blend formula `(1 - a) * bg + a * fg`, `a = fg_alpha / 255`, rounded down to
an integer (the `np.uint8` cast truncates; the float arithmetic is modelled
as exact rational arithmetic); the destination pixel's own fourth channel is
unchanged; and the endpoints are exact — alpha 255 yields exactly the
foreground channel and alpha 0 yields exactly the background channel. -/
theorem apply_bitmap_blend_formula (image : Image) (bitmap : Bitmap)
    (x y : Int) (i j : Nat)
    (hi0 : max y 0 ≤ (i : Int)) (hi1 : (i : Int) < min (y + bitmap.h) image.h)
    (hj0 : max x 0 ≤ (j : Int)) (hj1 : (j : Int) < min (x + bitmap.w) image.w)
    (ha : (bitmap.pix ((i : Int) - y).toNat ((j : Int) - x).toNat).a ≤ 255) :
    ∃ img2, applyBitmapToImage image bitmap x y = some img2 ∧
      img2.pix i j = blendPix (image.pix i j)
        (bitmap.pix ((i : Int) - y).toNat ((j : Int) - x).toNat) ∧
      (img2.pix i j).a = (image.pix i j).a ∧
      (img2.pix i j).c0 =
        ⌊(1 - ((bitmap.pix ((i : Int) - y).toNat ((j : Int) - x).toNat).a : ℚ) /
              255) * (image.pix i j).c0 +
          ((bitmap.pix ((i : Int) - y).toNat ((j : Int) - x).toNat).a : ℚ) /
              255 *
            (bitmap.pix ((i : Int) - y).toNat ((j : Int) - x).toNat).c0⌋₊ ∧
      (img2.pix i j).c1 =
        ⌊(1 - ((bitmap.pix ((i : Int) - y).toNat ((j : Int) - x).toNat).a : ℚ) /
              255) * (image.pix i j).c1 +
          ((bitmap.pix ((i : Int) - y).toNat ((j : Int) - x).toNat).a : ℚ) /
              255 *
            (bitmap.pix ((i : Int) - y).toNat ((j : Int) - x).toNat).c1⌋₊ ∧
      (img2.pix i j).c2 =
        ⌊(1 - ((bitmap.pix ((i : Int) - y).toNat ((j : Int) - x).toNat).a : ℚ) /
              255) * (image.pix i j).c2 +
          ((bitmap.pix ((i : Int) - y).toNat ((j : Int) - x).toNat).a : ℚ) /
              255 *
            (bitmap.pix ((i : Int) - y).toNat ((j : Int) - x).toNat).c2⌋₊ ∧
      blendChannel (image.pix i j).c0
          (bitmap.pix ((i : Int) - y).toNat ((j : Int) - x).toNat).c0 255 =
        (bitmap.pix ((i : Int) - y).toNat ((j : Int) - x).toNat).c0 ∧
      blendChannel (image.pix i j).c1
          (bitmap.pix ((i : Int) - y).toNat ((j : Int) - x).toNat).c1 255 =
        (bitmap.pix ((i : Int) - y).toNat ((j : Int) - x).toNat).c1 ∧
      blendChannel (image.pix i j).c2
          (bitmap.pix ((i : Int) - y).toNat ((j : Int) - x).toNat).c2 255 =
        (bitmap.pix ((i : Int) - y).toNat ((j : Int) - x).toNat).c2 ∧
      blendChannel (image.pix i j).c0
          (bitmap.pix ((i : Int) - y).toNat ((j : Int) - x).toNat).c0 0 =
        (image.pix i j).c0 ∧
      blendChannel (image.pix i j).c1
          (bitmap.pix ((i : Int) - y).toNat ((j : Int) - x).toNat).c1 0 =
        (image.pix i j).c1 ∧
      blendChannel (image.pix i j).c2
          (bitmap.pix ((i : Int) - y).toNat ((j : Int) - x).toNat).c2 0 =
        (image.pix i j).c2 := by
  have hy0 : 0 ≤ y + bitmap.h := by omega
  have hy1 : y ≤ image.h := by omega
  have hx0 : 0 ≤ x + bitmap.w := by omega
  have hx1 : x ≤ image.w := by omega
  obtain ⟨ey1, ey2, ey3, ey4⟩ := pyIdxE y bitmap.h image.h hy0 hy1
  obtain ⟨ex1, ex2, ex3, ex4⟩ := pyIdxE x bitmap.w image.w hx0 hx1
  have hsh1 : pyIdx (min (y + bitmap.h) image.h) image.h -
      pyIdx (max y 0) image.h =
      pyIdx (min (y + bitmap.h) image.h - y) bitmap.h -
        pyIdx (max y 0 - y) bitmap.h := by
    rw [ey1, ey2, ey3, ey4]; omega
  have hsh2 : pyIdx (min (x + bitmap.w) image.w) image.w -
      pyIdx (max x 0) image.w =
      pyIdx (min (x + bitmap.w) image.w - x) bitmap.w -
        pyIdx (max x 0 - x) bitmap.w := by
    rw [ex1, ex2, ex3, ex4]; omega
  have hcov : pyIdx (max y 0) image.h ≤ i ∧
      i < pyIdx (min (y + bitmap.h) image.h) image.h ∧
      pyIdx (max x 0) image.w ≤ j ∧
      j < pyIdx (min (x + bitmap.w) image.w) image.w := by
    rw [ey1, ey2, ex1, ex2]
    omega
  have hidx1 : pyIdx (max y 0 - y) bitmap.h + (i - pyIdx (max y 0) image.h) =
      ((i : Int) - y).toNat := by
    rw [ey1, ey3]; omega
  have hidx2 : pyIdx (max x 0 - x) bitmap.w + (j - pyIdx (max x 0) image.w) =
      ((j : Int) - x).toNat := by
    rw [ex1, ex3]; omega
  have hpix : (clippedBlend image bitmap x y).pix i j =
      blendPix (image.pix i j)
        (bitmap.pix ((i : Int) - y).toNat ((j : Int) - x).toNat) := by
    show (if pyIdx (max y 0) image.h ≤ i ∧
        i < pyIdx (min (y + bitmap.h) image.h) image.h ∧
        pyIdx (max x 0) image.w ≤ j ∧
        j < pyIdx (min (x + bitmap.w) image.w) image.w then
      blendPix (image.pix i j)
        (bitmap.pix (pyIdx (max y 0 - y) bitmap.h + (i - pyIdx (max y 0) image.h))
          (pyIdx (max x 0 - x) bitmap.w + (j - pyIdx (max x 0) image.w)))
      else image.pix i j) = blendPix (image.pix i j)
        (bitmap.pix ((i : Int) - y).toNat ((j : Int) - x).toNat)
    rw [if_pos hcov, hidx1, hidx2]
  refine ⟨clippedBlend image bitmap x y,
    applyBitmap_ok image bitmap x y hsh1 hsh2, hpix, ?_, ?_, ?_, ?_,
    blendChannel_full _ _, blendChannel_full _ _, blendChannel_full _ _,
    blendChannel_zero _ _, blendChannel_zero _ _, blendChannel_zero _ _⟩
  · rw [hpix]; rfl
  · rw [hpix]
    exact blendChannel_floor _ _ _ ha
  · rw [hpix]
    exact blendChannel_floor _ _ _ ha
  · rw [hpix]
    exact blendChannel_floor _ _ _ ha


/-- A 2×2 background image with pixel `(10, 20, 30, 9)` everywhere. -/
def wImg : Image :=
  ⟨2, 2, fun _ _ => ⟨10, 20, 30, 9⟩⟩

/-- A 2×2 glyph bitmap with pixel `(200, 100, 50, 128)` everywhere. -/
def wBmp : Bitmap :=
  ⟨2, 2, fun _ _ => ⟨200, 100, 50, 128⟩⟩

/-- C3 witness: the blend characterization at a partially clipped placement —
the 2×2 bitmap at `(x, y) = (-1, -1)` hangs off the top-left corner, and the
covered pixel `(0, 0)` blends with bitmap pixel `(1, 1)`. -/
theorem apply_bitmap_blend_formula_w :
    ∃ img2, applyBitmapToImage wImg wBmp (-1) (-1) = some img2 ∧
      img2.pix 0 0 = blendPix (wImg.pix 0 0) (wBmp.pix 1 1) ∧
      (img2.pix 0 0).a = (wImg.pix 0 0).a ∧
      (img2.pix 0 0).c0 =
        ⌊(1 - ((wBmp.pix 1 1).a : ℚ) / 255) * (wImg.pix 0 0).c0 +
          ((wBmp.pix 1 1).a : ℚ) / 255 * (wBmp.pix 1 1).c0⌋₊ ∧
      (img2.pix 0 0).c1 =
        ⌊(1 - ((wBmp.pix 1 1).a : ℚ) / 255) * (wImg.pix 0 0).c1 +
          ((wBmp.pix 1 1).a : ℚ) / 255 * (wBmp.pix 1 1).c1⌋₊ ∧
      (img2.pix 0 0).c2 =
        ⌊(1 - ((wBmp.pix 1 1).a : ℚ) / 255) * (wImg.pix 0 0).c2 +
          ((wBmp.pix 1 1).a : ℚ) / 255 * (wBmp.pix 1 1).c2⌋₊ ∧
      blendChannel (wImg.pix 0 0).c0 (wBmp.pix 1 1).c0 255 =
        (wBmp.pix 1 1).c0 ∧
      blendChannel (wImg.pix 0 0).c1 (wBmp.pix 1 1).c1 255 =
        (wBmp.pix 1 1).c1 ∧
      blendChannel (wImg.pix 0 0).c2 (wBmp.pix 1 1).c2 255 =
        (wBmp.pix 1 1).c2 ∧
      blendChannel (wImg.pix 0 0).c0 (wBmp.pix 1 1).c0 0 =
        (wImg.pix 0 0).c0 ∧
      blendChannel (wImg.pix 0 0).c1 (wBmp.pix 1 1).c1 0 =
        (wImg.pix 0 0).c1 ∧
      blendChannel (wImg.pix 0 0).c2 (wBmp.pix 1 1).c2 0 =
        (wImg.pix 0 0).c2 :=
  apply_bitmap_blend_formula wImg wBmp (-1) (-1) 0 0 (by decide) (by decide)
    (by decide) (by decide) (by decide)

/-- A 1×1 background image with pixel `(1, 1, 1, 7)`. -/
def cexImg : Image :=
  ⟨1, 1, fun _ _ => ⟨1, 1, 1, 7⟩⟩

/-- A 1×1 glyph bitmap with pixel `(0, 0, 0, 128)`: alpha 128 over
background channel 1. -/
def cexBmp : Bitmap :=
  ⟨1, 1, fun _ _ => ⟨0, 0, 0, 128⟩⟩

/-- C3 counterexample: blending foreground `(0, 0, 0)` at alpha `128` over
background channel value `1` stores `0` in the output (the `np.uint8` cast
truncates), but the claimed real-valued formula gives
`(1 - 128/255) * 1 + (128/255) * 0 = 127/255 ≠ 0`: the output channel does
not literally equal `(1 - a) * bg + a * fg`. -/
theorem apply_bitmap_quantization_cex :
    applyPix cexImg cexBmp 0 0 0 0 = some ⟨0, 0, 0, 7⟩ ∧
      ¬ (((0 : ℚ)) = (1 - 128 / 255) * 1 + 128 / 255 * 0) := by
  constructor
  · decide
  · norm_num
